import Mathlib

/-!
Verification development for the auto-snipd-audiobooks repository
(source files: audible_checker.py and audible_downloader.py).

The Python program keeps a SQLite table `books` of audiobook records,
reconciles it with freshly fetched catalog entries
(`insert_or_update_book` in audible_checker.py), and drives a
download/convert pipeline (`audible_downloader.py`).

The embedding below models the SQLite table as a list of rows (`Store`),
`SELECT ... WHERE ASIN = ?` as `List.find?`, and `UPDATE ... WHERE ASIN = ?`
as a pointwise `List.map`.  External effects (the `audible download`
subprocess, ffmpeg, the directory listing) are modelled by explicit
outcome parameters; the working directory is a list of file names.
-/

namespace AutoSnipd

/-- One row of the `books` table (see `create_table` in audible_checker.py,
lines 61-82).  The `EPUB_Column` field is named `epub` here. -/
structure Book where
  asin : String
  author : String
  title : String
  description : String
  length : String
  epub : String
  downloaded : Bool
  coverUrl : String
  finished : Bool
  status : String
deriving DecidableEq

/-- The `books` table, one `Book` per row.  `ASIN` is the primary key, so a
well-formed store has at most one row per `asin`. -/
abbrev Store := List Book

/-- Row lookup, modelling `SELECT ... FROM books WHERE ASIN = ?`
(audible_checker.py line 88). -/
def getBook (s : Store) (k : String) : Option Book :=
  s.find? (fun r => r.asin == k)

/-- Row replacement, modelling `UPDATE books SET ... WHERE ASIN = ?`
(audible_checker.py lines 115-127): every row whose ASIN matches the key is
replaced by the new row. -/
def setBook (s : Store) (key : String) (b : Book) : Store :=
  s.map (fun r => if r.asin == key then b else r)

/-- Description placeholder test, from the membership test
`current_description in ["No description available", "", None]`
(audible_checker.py line 101).  SQLite NULL and the empty string are both
modelled by `""`. -/
def isPlaceholderDescription (s : String) : Bool :=
  s == "No description available" || s == ""

/-- Length placeholder test, from `current_length in ["Unknown", "", None]`
(audible_checker.py line 104). -/
def isPlaceholderLength (s : String) : Bool :=
  s == "Unknown" || s == ""

/-- The update trigger of `insert_or_update_book` (audible_checker.py lines
93-112): the disjunction of the six `needs_update = True` conditions.
`not current_cover_url` is Python string truthiness, i.e. emptiness. -/
def needsUpdate (cur b : Book) : Bool :=
  (cur.status == "Wishlist" && b.status == "Library") ||
  (cur.author == "Unknown" && b.author != "Unknown") ||
  (isPlaceholderDescription cur.description && !isPlaceholderDescription b.description) ||
  (isPlaceholderLength cur.length && !isPlaceholderLength b.length) ||
  (cur.coverUrl == "" && b.coverUrl != "") ||
  (cur.finished != b.finished)

/-- The row written by the INSERT branch (audible_checker.py lines 134-146):
all fields come from the incoming record except `Downloaded`, which is
"Set ... to False always". -/
def insertBook (b : Book) : Book :=
  { b with downloaded := false }

/-- The row written by the UPDATE branch (audible_checker.py lines 115-127):
the SET clause covers Author, Description, Length, EPUB_Column, Downloaded
(forced to False), Cover_URL, Finished and Status; ASIN and Title keep their
stored values (Title is not in the SET clause). -/
def updateBook (cur b : Book) : Book :=
  { asin := cur.asin
    author := b.author
    title := cur.title
    description := b.description
    length := b.length
    epub := b.epub
    downloaded := false
    coverUrl := b.coverUrl
    finished := b.finished
    status := b.status }

/-- Return value of `insert_or_update_book`: `True` for an insert, `False`
for an update, `None` when no update was needed. -/
inductive RecResult where
  | inserted
  | updated
  | unchanged
deriving DecidableEq

/-- The reconciliation step `insert_or_update_book` (audible_checker.py
lines 84-152): look the ASIN up, insert when absent, rewrite the whole row
when any trigger fires, otherwise leave the table alone. -/
def insert_or_update_book (s : Store) (b : Book) : RecResult × Store :=
  match getBook s b.asin with
  | none => (RecResult.inserted, s ++ [insertBook b])
  | some cur =>
    if needsUpdate cur b then
      (RecResult.updated, setBook s b.asin (updateBook cur b))
    else
      (RecResult.unchanged, s)

/-- The reconciliation loop of `main_async` (audible_checker.py lines
234-256): `insert_or_update_book` applied to each normalized record in
order, threading the store through. -/
def reconcile : Store → List Book → List RecResult × Store
  | s, [] => ([], s)
  | s, b :: rest =>
    let p := insert_or_update_book s b
    let q := reconcile p.2 rest
    (p.1 :: q.1, q.2)

/-- Scan for the first unescaped tag close.  Helper for `strip_markdown`:
`findGt l` returns the characters after the first `>` in `l`, provided no
newline comes first (the regex `<.*?>` uses `.`, which does not match a
newline); otherwise there is no match starting at the pending `<`. -/
def findGt : List Char → Option (List Char)
  | [] => none
  | c :: rest =>
    if c = '>' then some rest
    else if c = '\n' then none
    else findGt rest

/-- Left-to-right removal of `<...>` spans, as `re.sub` with the pattern
`<.*?>` and empty replacement does: at each `<`, the shortest span up to the next `>` (with no newline in
between) is dropped; a `<` with no such `>` is kept.  The `Nat` argument is
recursion fuel; the initial call passes the text length, which always
suffices because every step consumes at least one character. -/
def stripMarkdownAux : Nat → List Char → List Char
  | 0, l => l
  | _ + 1, [] => []
  | fuel + 1, c :: rest =>
    if c = '<' then
      match findGt rest with
      | some rest2 => stripMarkdownAux fuel rest2
      | none => c :: stripMarkdownAux fuel rest
    else
      c :: stripMarkdownAux fuel rest

/-- The `strip_markdown` function (audible_checker.py lines 154-157):
`re.sub` applied with the compiled pattern `<.*?>` and empty replacement. -/
def strip_markdown (s : String) : String :=
  String.mk (stripMarkdownAux s.data.length s.data)

/-- A raw catalog entry as consumed by the normalization code in
`main_async` (audible_checker.py lines 234-243).  `none` models an absent
dictionary key; `authors` is the list of author names;
`product_images_500` is the `500` entry of `product_images` when the
dictionary is present and has one, `none` otherwise. -/
structure RawEntry where
  asin : Option String
  authors : List String
  title : Option String
  merchandising_summary : Option String
  runtime_length_min : Option Nat
  product_images_500 : Option String
  is_finished : Option Bool
  is_downloaded : Option Bool
deriving DecidableEq

/-- Normalization of a raw catalog entry into a `books` row, from
`main_async` (audible_checker.py lines 234-255): every missing field is
given a fallback value, `Downloaded` is proposed `False`, and the status is
`Library` exactly when `is_downloaded` is truthy. -/
def normalizeEntry (e : RawEntry) : Book :=
  { asin := e.asin.getD "Unknown ASIN"
    author := match e.authors with
      | [] => "Unknown"
      | names => String.intercalate ", " names
    title := e.title.getD "Unknown Title"
    description := strip_markdown (e.merchandising_summary.getD "No description available")
    length := match e.runtime_length_min with
      | some n => toString n
      | none => "Unknown"
    epub := ""
    downloaded := false
    coverUrl := e.product_images_500.getD ""
    finished := e.is_finished.getD false
    status := if e.is_downloaded.getD false then "Library" else "Wishlist" }

/-- One reconciliation run of `main_async` (audible_checker.py lines
234-256): normalize each fetched entry and feed it to
`insert_or_update_book` in order. -/
def runReconciliation (entries : List RawEntry) (s : Store) : List RecResult × Store :=
  reconcile s (entries.map normalizeEntry)

/-! ### audible_downloader.py -/

/-- Character-list test: the second list is a prefix of the first. -/
def chListStartsWith : List Char → List Char → Bool
  | _, [] => true
  | [], _ :: _ => false
  | c :: s, d :: p => c == d && chListStartsWith s p

/-- Character-list test: the second list occurs contiguously in the first. -/
def chListContains : List Char → List Char → Bool
  | [], p => p.isEmpty
  | s@(_ :: rest), p => chListStartsWith s p || chListContains rest p

/-- String test for Python `s.startswith(p)`. -/
def strStartsWith (s p : String) : Bool :=
  chListStartsWith s.data p.data

/-- String test for Python `p in s` (substring containment). -/
def strContains (s p : String) : Bool :=
  chListContains s.data p.data

/-- String test for Python `s.endswith(p)`. -/
def strEndsWith (s p : String) : Bool :=
  chListStartsWith s.data.reverse p.data.reverse

/-- The resume probe `find_downloaded_aax_file` (audible_downloader.py
lines 130-140): scan the directory listing for the first file name ending
in `.aax` such that the ASIN occurs in the name or the name starts with the
hardcoded literal `The_Algebra_of_Happiness`.  The source receives the
directory path and lists it; here the listing is passed directly, and the
returned value is the matching file name (the source prepends the constant
directory prefix with `os.path.join`). -/
def find_downloaded_aax_file (files : List String) (asin : String) : Option String :=
  files.find? (fun filename =>
    strEndsWith filename ".aax" &&
    (strContains filename asin || strStartsWith filename "The_Algebra_of_Happiness"))

/-- A download candidate row as returned by the selector query:
`SELECT ASIN, Title, Author` (audible_downloader.py line 66). -/
structure Cand where
  asin : String
  title : String
  author : String
deriving DecidableEq

/-- The selector `get_books_to_download` (audible_downloader.py lines
62-71): `SELECT ASIN, Title, Author FROM books WHERE Downloaded = 0 AND
Finished = 0 AND Status = Library` (the status compared against the
string literal Library).  On a database error the source
returns `[]`; the embedded store has no failing reads. -/
def get_books_to_download (s : Store) : List Cand :=
  (s.filter (fun b =>
      b.downloaded == false && b.finished == false && b.status == "Library")).map
    (fun b => { asin := b.asin, title := b.title, author := b.author })

/-- The store write `update_book_downloaded_status` (audible_downloader.py
lines 73-81): `UPDATE books SET Downloaded = 1 WHERE ASIN = ?`. -/
def update_book_downloaded_status (s : Store) (asin : String) : Store :=
  s.map (fun b => if b.asin == asin then { b with downloaded := true } else b)

/-- Outcome of one `audible download` subprocess invocation: the call either
raises `CalledProcessError` (`subprocess.run` with `check=True`,
audible_downloader.py line 100) or returns with code 0 having added the
given file names to the working directory. -/
inductive FetchOutcome where
  | raises
  | ok (newFiles : List String)
deriving DecidableEq

/-- Outcomes of the external tools for one candidate: the fetch subprocess
result and whether the ffmpeg invocation exits with code 0. -/
structure ExtOutcome where
  fetch : FetchOutcome
  ffmpegOk : Bool
deriving DecidableEq

/-- Observable actions of the pipeline, used to state which steps ran for
which candidate: the per-candidate loop body started, the download
subprocess was invoked, ffmpeg was invoked on a file, `Downloaded = 1` was
written for an ASIN. -/
inductive Event where
  | itemStarted (asin : String)
  | fetchInvoked (asin : String)
  | transcodeInvoked (file : String)
  | dbWrite (asin : String)
deriving DecidableEq

/-- The output file name built by the f-string from title and author with
the `.m4a` suffix (audible_downloader.py lines 90, 118, 203). -/
def m4aName (c : Cand) : String :=
  c.title ++ " - " ++ c.author ++ ".m4a"

/-- Directory effect of `convert_to_m4a` (audible_downloader.py lines
142-161): on ffmpeg success the `.aax` file is removed and the `.m4a` file
appears; on failure (or exception) the function only logs, leaving the
`.aax` file in place.  The function returns `None` either way, so no result
is modelled. -/
def convert_to_m4a (files : List String) (aaxFile m4aFile : String) (ffmpegOk : Bool) : List String :=
  if ffmpegOk then files.erase aaxFile ++ [m4aFile] else files

/-- The per-candidate worker `download_book` (audible_downloader.py lines
83-128): probe for an existing `.aax` file and convert it if found
(returning True); otherwise run the download subprocess — an exception
yields False, and on success the probe runs again over the enlarged
directory, converting and returning True when it finds a file, False
otherwise.  (The `returncode != 0` else-branch at line 121 is unreachable
because `check=True` raises on a nonzero code.)  Returns the Python return
value, the directory contents afterwards, and the invocation events. -/
def download_book (c : Cand) (files : List String) (o : ExtOutcome) :
    Bool × List String × List Event :=
  match find_downloaded_aax_file files c.asin with
  | some f =>
    (true, convert_to_m4a files f (m4aName c) o.ffmpegOk, [Event.transcodeInvoked f])
  | none =>
    match o.fetch with
    | FetchOutcome.raises => (false, files, [Event.fetchInvoked c.asin])
    | FetchOutcome.ok newFiles =>
      match find_downloaded_aax_file (files ++ newFiles) c.asin with
      | none => (false, files ++ newFiles, [Event.fetchInvoked c.asin])
      | some f =>
        (true, convert_to_m4a (files ++ newFiles) f (m4aName c) o.ffmpegOk,
          [Event.fetchInvoked c.asin, Event.transcodeInvoked f])

/-- One iteration of the download loop in `main` (audible_downloader.py
lines 198-209): probe first — on a hit, convert and `continue` with no
store write; otherwise call `download_book` and, only when it returns True
and `TEST_MODE` is off, write `Downloaded = 1`. -/
def processOne (tm : Bool) (o : ExtOutcome) (st : Store × List String) (c : Cand) :
    Store × List String × List Event :=
  match find_downloaded_aax_file st.2 c.asin with
  | some f =>
    (st.1, convert_to_m4a st.2 f (m4aName c) o.ffmpegOk,
      [Event.itemStarted c.asin, Event.transcodeInvoked f])
  | none =>
    let r := download_book c st.2 o
    if r.1 && !tm then
      (update_book_downloaded_status st.1 c.asin, r.2.1,
        Event.itemStarted c.asin :: r.2.2 ++ [Event.dbWrite c.asin])
    else
      (st.1, r.2.1, Event.itemStarted c.asin :: r.2.2)

/-- The download loop of `main` (audible_downloader.py lines 198-209) over
a candidate list, threading store and directory; `env` supplies each
external outcomes of each candidate by ASIN. -/
def processBooks (tm : Bool) (env : String → ExtOutcome) :
    Store × List String → List Cand → Store × List String × List Event
  | st, [] => (st.1, st.2, [])
  | st, c :: rest =>
    let r := processOne tm (env c.asin) st c
    let q := processBooks tm env (r.1, r.2.1) rest
    (q.1, q.2.1, r.2.2 ++ q.2.2)

/-- The module constant `TEST_MODE` (audible_downloader.py line 34),
hardcoded to `True` in the shipped source. -/
def TEST_MODE : Bool :=
  true

/-- The download phase of `main` (audible_downloader.py lines 184-209):
select candidates, truncate to the first one when `TEST_MODE` is set
(`books = books[:1]`, line 193), and run the loop. -/
def mainRun (tm : Bool) (env : String → ExtOutcome) (s : Store) (files : List String) :
    Store × List String × List Event :=
  let books := get_books_to_download s
  processBooks tm env (s, files) (if tm then books.take 1 else books)

/-- Projection of the item-started events, used to state which candidates
the loop reached. -/
def startedAsin : Event → Option String
  | Event.itemStarted a => some a
  | _ => none

/-- ASINs of the candidates the loop body started, in order. -/
def startedAsins (evs : List Event) : List String :=
  evs.filterMap startedAsin

/-- Test for a `Downloaded = 1` store write event. -/
def isDbWrite : Event → Bool
  | Event.dbWrite _ => true
  | _ => false

/-- Number of `Downloaded = 1` store writes in an event list. -/
def dbWriteCount (evs : List Event) : Nat :=
  evs.countP isDbWrite

/-! ### Store lemmas -/

theorem getBook_append (s t : Store) (k : String) :
    getBook (s ++ t) k = (getBook s k).or (getBook t k) :=
  List.find?_append

theorem getBook_setBook_ne (s : Store) (key : String) (b : Book)
    (hb : b.asin = key) (k : String) (hk : k ≠ key) :
    getBook (setBook s key b) k = getBook s k := by
  induction s with
  | nil => rfl
  | cons a rest ih =>
    show getBook ((if a.asin == key then b else a) :: setBook rest key b) k
      = getBook (a :: rest) k
    by_cases ha : a.asin = key
    · rw [if_pos (by simp [ha])]
      unfold getBook
      rw [List.find?_cons_of_neg _ (by simp [hb]; exact fun hh => hk hh.symm),
        List.find?_cons_of_neg _ (by simp [ha]; exact fun hh => hk hh.symm)]
      exact ih
    · rw [if_neg (by simp [ha])]
      unfold getBook
      by_cases hak : (a.asin == k) = true
      · rw [List.find?_cons_of_pos _ (by exact hak), List.find?_cons_of_pos _ (by exact hak)]
      · rw [List.find?_cons_of_neg _ (by exact hak), List.find?_cons_of_neg _ (by exact hak)]
        exact ih

theorem getBook_setBook_self (s : Store) (key : String) (b : Book)
    (hb : b.asin = key) (cur : Book) (h : getBook s key = some cur) :
    getBook (setBook s key b) key = some b := by
  induction s with
  | nil => simp [getBook] at h
  | cons a rest ih =>
    show getBook ((if a.asin == key then b else a) :: setBook rest key b) key = some b
    by_cases ha : a.asin = key
    · rw [if_pos (by simp [ha])]
      unfold getBook
      rw [List.find?_cons_of_pos _ (by simp [hb])]
    · rw [if_neg (by simp [ha])]
      unfold getBook
      rw [List.find?_cons_of_neg _ (by simp [ha])]
      apply ih
      unfold getBook at h
      rwa [List.find?_cons_of_neg _ (by simp [ha])] at h

/-! ### Trigger lemmas -/

theorem needsUpdate_eq_false_of_agree (cur b : Book)
    (hs : cur.status = b.status) (ha : cur.author = b.author)
    (hd : cur.description = b.description) (hl : cur.length = b.length)
    (hc : cur.coverUrl = b.coverUrl) (hf : cur.finished = b.finished) :
    needsUpdate cur b = false := by
  unfold needsUpdate
  rw [hs, ha, hd, hl, hc, hf]
  have h1 : (b.status == "Wishlist" && b.status == "Library") = false := by
    by_cases hW : b.status = "Wishlist"
    · rw [hW]; decide
    · simp [hW]
  simp [h1, bne]

theorem needsUpdate_insertBook (b : Book) :
    needsUpdate (insertBook b) b = false :=
  needsUpdate_eq_false_of_agree _ _ rfl rfl rfl rfl rfl rfl

theorem needsUpdate_updateBook (cur b : Book) :
    needsUpdate (updateBook cur b) b = false :=
  needsUpdate_eq_false_of_agree _ _ rfl rfl rfl rfl rfl rfl

/-! ### Reconciliation-step lemmas -/

theorem insert_or_update_book_ins (s : Store) (b : Book)
    (h : getBook s b.asin = none) :
    insert_or_update_book s b = (RecResult.inserted, s ++ [insertBook b]) := by
  unfold insert_or_update_book
  rw [h]

theorem insert_or_update_book_upd (s : Store) (b cur : Book)
    (h : getBook s b.asin = some cur) (hn : needsUpdate cur b = true) :
    insert_or_update_book s b = (RecResult.updated, setBook s b.asin (updateBook cur b)) := by
  unfold insert_or_update_book
  rw [h]
  simp [hn]

theorem insert_or_update_book_same (s : Store) (b cur : Book)
    (h : getBook s b.asin = some cur) (hn : needsUpdate cur b = false) :
    insert_or_update_book s b = (RecResult.unchanged, s) := by
  unfold insert_or_update_book
  rw [h]
  simp [hn]

theorem asin_of_getBook (s : Store) (k : String) (cur : Book)
    (h : getBook s k = some cur) : cur.asin = k := by
  have := List.find?_some h
  simpa using this

theorem insert_or_update_book_post (s : Store) (b : Book) :
    ∃ cur, getBook (insert_or_update_book s b).2 b.asin = some cur ∧
      needsUpdate cur b = false := by
  cases h : getBook s b.asin with
  | none =>
    refine ⟨insertBook b, ?_, needsUpdate_insertBook b⟩
    rw [insert_or_update_book_ins s b h, getBook_append, h]
    have : getBook [insertBook b] b.asin = some (insertBook b) := by
      unfold getBook
      rw [List.find?_cons_of_pos _ (by simp [insertBook])]
    rw [this]
    rfl
  | some cur =>
    cases hn : needsUpdate cur b with
    | false =>
      exact ⟨cur, by rw [insert_or_update_book_same s b cur h hn]; exact h, hn⟩
    | true =>
      refine ⟨updateBook cur b, ?_, needsUpdate_updateBook cur b⟩
      rw [insert_or_update_book_upd s b cur h hn]
      exact getBook_setBook_self s b.asin (updateBook cur b)
        (asin_of_getBook s b.asin cur h) cur h

theorem insert_or_update_book_other (s : Store) (b : Book) (k : String)
    (hk : k ≠ b.asin) :
    getBook (insert_or_update_book s b).2 k = getBook s k := by
  cases h : getBook s b.asin with
  | none =>
    rw [insert_or_update_book_ins s b h, getBook_append]
    have h1 : getBook [insertBook b] k = none := by
      unfold getBook
      rw [List.find?_cons_of_neg _ (by simp [insertBook]; exact fun hh => hk hh.symm)]
      rfl
    rw [h1, Option.or_none]
  | some cur =>
    cases hn : needsUpdate cur b with
    | false => rw [insert_or_update_book_same s b cur h hn]
    | true =>
      rw [insert_or_update_book_upd s b cur h hn]
      exact getBook_setBook_ne s b.asin (updateBook cur b)
        (asin_of_getBook s b.asin cur h) k hk

/-! ### Reconciliation-run lemmas -/

theorem reconcile_length (s : Store) (bs : List Book) :
    (reconcile s bs).1.length = bs.length := by
  induction bs generalizing s with
  | nil => rfl
  | cons b rest ih => simp [reconcile, ih]

theorem getBook_reconcile_not_mem (s : Store) (bs : List Book) (k : String)
    (h : k ∉ bs.map (fun b => b.asin)) :
    getBook (reconcile s bs).2 k = getBook s k := by
  induction bs generalizing s with
  | nil => rfl
  | cons b rest ih =>
    simp only [List.map_cons, List.mem_cons, not_or] at h
    simp only [reconcile]
    rw [ih _ h.2, insert_or_update_book_other s b k h.1]

theorem reconcile_post (s : Store) (bs : List Book)
    (h : (bs.map (fun b => b.asin)).Nodup) :
    ∀ b, b ∈ bs → ∃ cur, getBook (reconcile s bs).2 b.asin = some cur ∧
      needsUpdate cur b = false := by
  induction bs generalizing s with
  | nil => intro b hb; simp at hb
  | cons b0 rest ih =>
    intro b hb
    simp only [List.map_cons, List.nodup_cons] at h
    rcases List.mem_cons.mp hb with hb0 | hbr
    · subst hb0
      obtain ⟨cur, hc, hn⟩ := insert_or_update_book_post s b
      refine ⟨cur, ?_, hn⟩
      simp only [reconcile]
      rw [getBook_reconcile_not_mem _ rest b.asin h.1]
      exact hc
    · simpa [reconcile] using ih (insert_or_update_book s b0).2 h.2 b hbr

theorem reconcile_unchanged_of (s : Store) (bs : List Book)
    (h : ∀ b, b ∈ bs → ∃ cur, getBook s b.asin = some cur ∧
      needsUpdate cur b = false) :
    reconcile s bs = (bs.map (fun _ => RecResult.unchanged), s) := by
  induction bs with
  | nil => rfl
  | cons b rest ih =>
    obtain ⟨cur, hc, hn⟩ := h b (List.mem_cons_self b rest)
    have hstep := insert_or_update_book_same s b cur hc hn
    simp only [reconcile, hstep]
    rw [ih (fun b' hb' => h b' (List.mem_cons_of_mem b hb'))]
    rfl

/-- Test for a download-subprocess invocation event. -/
def isFetchInvoked : Event → Bool
  | Event.fetchInvoked _ => true
  | _ => false

/-- Number of download-subprocess invocations in an event list. -/
def fetchCount (evs : List Event) : Nat :=
  evs.countP isFetchInvoked

/-- Specification predicate for the amended download claim: the fetch
subprocess returns successfully and the probe then locates an artifact in
the enlarged directory (mirrors audible_downloader.py lines 100-115). -/
def fetchLocatesArtifact (o : ExtOutcome) (files : List String) (asin : String) : Bool :=
  match o.fetch with
  | FetchOutcome.raises => false
  | FetchOutcome.ok newFiles => (find_downloaded_aax_file (files ++ newFiles) asin).isSome

/-! ### Event-list lemmas -/

@[simp] theorem startedAsins_nil : startedAsins [] = [] :=
  rfl

@[simp] theorem startedAsins_cons_itemStarted (a : String) (evs : List Event) :
    startedAsins (Event.itemStarted a :: evs) = a :: startedAsins evs := by
  simp [startedAsins, List.filterMap_cons, startedAsin]

@[simp] theorem startedAsins_cons_fetchInvoked (a : String) (evs : List Event) :
    startedAsins (Event.fetchInvoked a :: evs) = startedAsins evs := by
  simp [startedAsins, List.filterMap_cons, startedAsin]

@[simp] theorem startedAsins_cons_transcodeInvoked (f : String) (evs : List Event) :
    startedAsins (Event.transcodeInvoked f :: evs) = startedAsins evs := by
  simp [startedAsins, List.filterMap_cons, startedAsin]

@[simp] theorem startedAsins_cons_dbWrite (a : String) (evs : List Event) :
    startedAsins (Event.dbWrite a :: evs) = startedAsins evs := by
  simp [startedAsins, List.filterMap_cons, startedAsin]

@[simp] theorem startedAsins_append (l1 l2 : List Event) :
    startedAsins (l1 ++ l2) = startedAsins l1 ++ startedAsins l2 := by
  simp [startedAsins, List.filterMap_append]

@[simp] theorem dbWriteCount_nil : dbWriteCount [] = 0 :=
  rfl

@[simp] theorem dbWriteCount_cons (e : Event) (evs : List Event) :
    dbWriteCount (e :: evs) = dbWriteCount evs + (if isDbWrite e then 1 else 0) := by
  simp [dbWriteCount, List.countP_cons]

@[simp] theorem dbWriteCount_append (l1 l2 : List Event) :
    dbWriteCount (l1 ++ l2) = dbWriteCount l1 + dbWriteCount l2 := by
  simp [dbWriteCount, List.countP_append]

@[simp] theorem isDbWrite_itemStarted (a : String) :
    isDbWrite (Event.itemStarted a) = false :=
  rfl

@[simp] theorem isDbWrite_fetchInvoked (a : String) :
    isDbWrite (Event.fetchInvoked a) = false :=
  rfl

@[simp] theorem isDbWrite_transcodeInvoked (f : String) :
    isDbWrite (Event.transcodeInvoked f) = false :=
  rfl

@[simp] theorem isDbWrite_dbWrite (a : String) :
    isDbWrite (Event.dbWrite a) = true :=
  rfl

@[simp] theorem fetchCount_nil : fetchCount [] = 0 :=
  rfl

@[simp] theorem fetchCount_cons (e : Event) (evs : List Event) :
    fetchCount (e :: evs) = fetchCount evs + (if isFetchInvoked e then 1 else 0) := by
  simp [fetchCount, List.countP_cons]

@[simp] theorem isFetchInvoked_itemStarted (a : String) :
    isFetchInvoked (Event.itemStarted a) = false :=
  rfl

@[simp] theorem isFetchInvoked_fetchInvoked (a : String) :
    isFetchInvoked (Event.fetchInvoked a) = true :=
  rfl

@[simp] theorem isFetchInvoked_transcodeInvoked (f : String) :
    isFetchInvoked (Event.transcodeInvoked f) = false :=
  rfl

@[simp] theorem isFetchInvoked_dbWrite (a : String) :
    isFetchInvoked (Event.dbWrite a) = false :=
  rfl

/-! ### Pipeline lemmas -/

theorem startedAsins_download_book (c : Cand) (files : List String) (o : ExtOutcome) :
    startedAsins (download_book c files o).2.2 = [] := by
  unfold download_book
  split
  · simp
  · split
    · simp
    · split <;> simp

theorem dbWriteCount_download_book (c : Cand) (files : List String) (o : ExtOutcome) :
    dbWriteCount (download_book c files o).2.2 = 0 := by
  unfold download_book
  split
  · simp
  · split
    · simp
    · split <;> simp

theorem startedAsins_processOne (tm : Bool) (o : ExtOutcome)
    (st : Store × List String) (c : Cand) :
    startedAsins (processOne tm o st c).2.2 = [c.asin] := by
  unfold processOne
  split
  · simp
  · dsimp only
    split <;> simp [startedAsins_download_book]

theorem processOne_store_testmode (o : ExtOutcome) (st : Store × List String) (c : Cand) :
    (processOne true o st c).1 = st.1 := by
  unfold processOne
  split
  · rfl
  · dsimp only
    rw [if_neg]
    simp

theorem dbWriteCount_processOne_testmode (o : ExtOutcome)
    (st : Store × List String) (c : Cand) :
    dbWriteCount (processOne true o st c).2.2 = 0 := by
  unfold processOne
  split
  · simp
  · dsimp only
    rw [if_neg]
    · simp [dbWriteCount_download_book]
    · simp

theorem startedAsins_processBooks (tm : Bool) (env : String → ExtOutcome)
    (bs : List Cand) (st : Store × List String) :
    startedAsins (processBooks tm env st bs).2.2 = bs.map (fun c => c.asin) := by
  induction bs generalizing st with
  | nil => simp [processBooks]
  | cons c rest ih =>
    simp [processBooks, startedAsins_processOne, ih]

theorem processBooks_store_testmode (env : String → ExtOutcome)
    (bs : List Cand) (st : Store × List String) :
    (processBooks true env st bs).1 = st.1 := by
  induction bs generalizing st with
  | nil => rfl
  | cons c rest ih =>
    simp [processBooks, ih, processOne_store_testmode]

theorem dbWriteCount_processBooks_testmode (env : String → ExtOutcome)
    (bs : List Cand) (st : Store × List String) :
    dbWriteCount (processBooks true env st bs).2.2 = 0 := by
  induction bs generalizing st with
  | nil => rfl
  | cons c rest ih =>
    simp [processBooks, ih, dbWriteCount_processOne_testmode]

/-! ### Specification predicates for the amended reconciliation claims -/

/-- Specification predicate: the disjunction of the update triggers of
`insert_or_update_book` other than its author clause (audible_checker.py
lines 95-112 with lines 98-100 removed). -/
def updateTriggerExceptAuthor (cur b : Book) : Bool :=
  (cur.status == "Wishlist" && b.status == "Library") ||
  (isPlaceholderDescription cur.description && !isPlaceholderDescription b.description) ||
  (isPlaceholderLength cur.length && !isPlaceholderLength b.length) ||
  (cur.coverUrl == "" && b.coverUrl != "") ||
  (cur.finished != b.finished)

/-- Specification predicate: the disjunction of the update triggers of
`insert_or_update_book` other than its status clause (audible_checker.py
lines 95-112 with lines 95-97 removed). -/
def updateTriggerExceptStatus (cur b : Book) : Bool :=
  (cur.author == "Unknown" && b.author != "Unknown") ||
  (isPlaceholderDescription cur.description && !isPlaceholderDescription b.description) ||
  (isPlaceholderLength cur.length && !isPlaceholderLength b.length) ||
  (cur.coverUrl == "" && b.coverUrl != "") ||
  (cur.finished != b.finished)

/-! ### Demonstration data used by witnesses and counterexamples -/

/-- Stored row with a real author but a placeholder description. -/
def bkJane : Book :=
  { asin := "K1", author := "Jane Doe", title := "T1",
    description := "No description available", length := "10", epub := "",
    downloaded := false, coverUrl := "u", finished := false, status := "Library" }

/-- Incoming record for the same key with a placeholder author but a real
description. -/
def bkIncoming1 : Book :=
  { bkJane with author := "Unknown", description := "Great book" }

/-- Stored Library row with every fill-trigger already satisfied. -/
def bkLib2 : Book :=
  { asin := "K2", author := "A", title := "T2", description := "D",
    length := "5", epub := "", downloaded := false, coverUrl := "u",
    finished := false, status := "Library" }

/-- Incoming Wishlist record for the same key differing only in
`Finished`. -/
def bkIncoming2 : Book :=
  { bkLib2 with status := "Wishlist", finished := true }

/-- Library-feed copy of a title that also appears in the wishlist feed. -/
def demoLib : Book :=
  { asin := "D1", author := "A", title := "T", description := "D",
    length := "5", epub := "", downloaded := false, coverUrl := "c",
    finished := true, status := "Library" }

/-- Wishlist-feed copy of the same title (same ASIN). -/
def demoWish : Book :=
  { demoLib with finished := false, status := "Wishlist" }

/-- Snapshot in which the same ASIN occurs twice (library and wishlist). -/
def demoSnapDup : List Book :=
  [demoLib, demoWish]

/-- Snapshot with pairwise distinct ASINs. -/
def demoSnapNodup : List Book :=
  [demoLib, { demoLib with asin := "D2", status := "Wishlist" }]

/-- Catalog entry that lacks both its `asin` and its `title`. -/
def rawNoKey : RawEntry :=
  { asin := none, authors := [], title := none, merchandising_summary := none,
    runtime_length_min := none, product_images_500 := none,
    is_finished := none, is_downloaded := none }

/-! ### Claims about the reconciliation engine -/

/-- C1 counterexample: the stored author "Jane Doe" (non-placeholder) is
overwritten with the placeholder "Unknown" by a reconciliation step whose
incoming record merely fills in the description, contradicting the claim
that a field holding a non-placeholder value is never overwritten with a
placeholder. -/
theorem author_overwritten_by_placeholder_cx :
    bkJane.author = "Jane Doe" ∧
    bkIncoming1.author = "Unknown" ∧
    (getBook (insert_or_update_book [bkJane] bkIncoming1).2 "K1").map
        (fun r => r.author) = some "Unknown" := by
  decide

/-- C1 (amended): a non-placeholder field is never overwritten because of
its own comparison — an incoming placeholder author never by itself
triggers an update — but when any other trigger fires (status
Wishlist-to-Library, a placeholder description/length/cover being filled,
or a `Finished` change) the whole row is rewritten with the incoming
values, and then a non-placeholder author is overwritten with the
placeholder. -/
theorem author_placeholder_overwrite_characterized (s : Store) (b cur : Book)
    (h : getBook s b.asin = some cur) (_hcur : cur.author ≠ "Unknown")
    (hb : b.author = "Unknown") :
    (getBook (insert_or_update_book s b).2 b.asin).map (fun r => r.author)
      = some (if updateTriggerExceptAuthor cur b then "Unknown" else cur.author) := by
  have hclause : (cur.author == "Unknown" && b.author != "Unknown") = false := by
    rw [hb]
    simp [bne]
  have hnu : needsUpdate cur b = updateTriggerExceptAuthor cur b := by
    unfold needsUpdate updateTriggerExceptAuthor
    rw [hclause]
    simp
  cases ht : updateTriggerExceptAuthor cur b with
  | false =>
    rw [insert_or_update_book_same s b cur h (by rw [hnu, ht]), h]
    simp
  | true =>
    rw [insert_or_update_book_upd s b cur h (by rw [hnu, ht])]
    rw [getBook_setBook_self s b.asin (updateBook cur b)
      (asin_of_getBook s b.asin cur h) cur h]
    simp [updateBook, hb]

/-- C1 witness: the amended characterization instantiated at the concrete
Jane-Doe store. -/
theorem author_placeholder_overwrite_characterized_w :
    (getBook (insert_or_update_book [bkJane] bkIncoming1).2 bkIncoming1.asin).map
        (fun r => r.author)
      = some (if updateTriggerExceptAuthor bkJane bkIncoming1 then "Unknown"
          else bkJane.author) :=
  author_placeholder_overwrite_characterized [bkJane] bkIncoming1 bkJane
    (by decide) (by decide) (by decide)

/-- C2 counterexample: a stored `Status = Library` row is rewritten to
`Status = Wishlist` by reconciliation when the incoming Wishlist record
differs in `Finished`, contradicting the claim that reconciliation never
writes `Wishlist` over `Library`. -/
theorem library_demoted_to_wishlist_cx :
    bkLib2.status = "Library" ∧
    bkIncoming2.status = "Wishlist" ∧
    (getBook (insert_or_update_book [bkLib2] bkIncoming2).2 "K2").map
        (fun r => r.status) = some "Wishlist" := by
  decide

/-- C2 (amended): the status clause alone never demotes — with a stored
Library row an incoming Wishlist status never by itself triggers an update
— but when any other trigger fires (author/description/length/cover fill
or a `Finished` change) the whole row is rewritten, writing the incoming
`Wishlist` status over the stored `Library`. -/
theorem status_demotion_characterized (s : Store) (b cur : Book)
    (h : getBook s b.asin = some cur) (hcur : cur.status = "Library")
    (hb : b.status = "Wishlist") :
    (getBook (insert_or_update_book s b).2 b.asin).map (fun r => r.status)
      = some (if updateTriggerExceptStatus cur b then "Wishlist" else "Library") := by
  have hclause : (cur.status == "Wishlist" && b.status == "Library") = false := by
    have hlw : (("Library" : String) == "Wishlist") = false := by decide
    rw [hcur, hlw, Bool.false_and]
  have hnu : needsUpdate cur b = updateTriggerExceptStatus cur b := by
    unfold needsUpdate updateTriggerExceptStatus
    rw [hclause]
    simp
  cases ht : updateTriggerExceptStatus cur b with
  | false =>
    rw [insert_or_update_book_same s b cur h (by rw [hnu, ht]), h]
    simp [hcur]
  | true =>
    rw [insert_or_update_book_upd s b cur h (by rw [hnu, ht])]
    rw [getBook_setBook_self s b.asin (updateBook cur b)
      (asin_of_getBook s b.asin cur h) cur h]
    simp [updateBook, hb]

/-- C2 witness: the amended characterization instantiated at the concrete
Library/Wishlist pair. -/
theorem status_demotion_characterized_w :
    (getBook (insert_or_update_book [bkLib2] bkIncoming2).2 bkIncoming2.asin).map
        (fun r => r.status)
      = some (if updateTriggerExceptStatus bkLib2 bkIncoming2 then "Wishlist"
          else "Library") :=
  status_demotion_characterized [bkLib2] bkIncoming2 bkLib2
    (by decide) (by decide) (by decide)

/-- C3 counterexample: a catalog snapshot in which the same ASIN occurs in
both the library and the wishlist feed makes the second identical
reconciliation run report `updated` (not `unchanged`) for both entries,
contradicting the claim that a second run yields Unchanged for every
record. -/
theorem reconcile_second_run_not_unchanged_cx :
    (reconcile (reconcile ([] : Store) demoSnapDup).2 demoSnapDup).1
      = [RecResult.updated, RecResult.updated] := by
  decide

/-- C3 (amended): for a snapshot whose records carry pairwise distinct
keys, rerunning reconciliation with the identical snapshot returns
`unchanged` for every record and leaves the store exactly as the first run
left it. -/
theorem reconcile_idempotent_on_nodup_keys (bs : List Book) (s0 : Store)
    (h : (bs.map (fun b => b.asin)).Nodup) :
    reconcile (reconcile s0 bs).2 bs
      = (bs.map (fun _ => RecResult.unchanged), (reconcile s0 bs).2) :=
  reconcile_unchanged_of _ bs (reconcile_post s0 bs h)

/-- C3 witness: idempotency at a concrete two-record distinct-key
snapshot. -/
theorem reconcile_idempotent_on_nodup_keys_w :
    reconcile (reconcile ([] : Store) demoSnapNodup).2 demoSnapNodup
      = (demoSnapNodup.map (fun _ => RecResult.unchanged),
        (reconcile ([] : Store) demoSnapNodup).2) :=
  reconcile_idempotent_on_nodup_keys demoSnapNodup [] (by decide)

/-- C9 counterexample: a catalog entry missing both its key and its title
is not skipped — it is normalized with fallback values and inserted into
the store under the key "Unknown ASIN", contradicting the claim that such
an entry is never written to the store. -/
theorem malformed_entry_written_cx :
    rawNoKey.asin = none ∧
    rawNoKey.title = none ∧
    (runReconciliation [rawNoKey] ([] : Store)).2.length = 1 ∧
    (getBook (runReconciliation [rawNoKey] ([] : Store)).2 "Unknown ASIN").isSome
      = true := by
  decide

/-- C9 (amended): an incoming entry missing its key and title is not
skipped: normalization substitutes the fallbacks "Unknown ASIN" and
"Unknown Title", the entry is reconciled like any other — afterwards the
store holds a record under the fallback key — and the run continues with
the remaining entries (one result per entry, never fatal). -/
theorem malformed_entry_defaulted_and_written (e : RawEntry) (s : Store)
    (rest : List RawEntry) (h1 : e.asin = none) (h2 : e.title = none) :
    (normalizeEntry e).asin = "Unknown ASIN" ∧
    (normalizeEntry e).title = "Unknown Title" ∧
    (runReconciliation (e :: rest) s).1.length = rest.length + 1 ∧
    (getBook (insert_or_update_book s (normalizeEntry e)).2 "Unknown ASIN").isSome
      = true := by
  have ha : (normalizeEntry e).asin = "Unknown ASIN" := by
    simp [normalizeEntry, h1]
  refine ⟨ha, by simp [normalizeEntry, h2], ?_, ?_⟩
  · simp [runReconciliation, reconcile_length]
  · obtain ⟨cur, hc, _⟩ := insert_or_update_book_post s (normalizeEntry e)
    rw [ha] at hc
    simp [hc]

/-- C9 witness: the amended statement at the concrete all-missing entry and
the empty store. -/
theorem malformed_entry_defaulted_and_written_w :
    (normalizeEntry rawNoKey).asin = "Unknown ASIN" ∧
    (normalizeEntry rawNoKey).title = "Unknown Title" ∧
    (runReconciliation [rawNoKey] ([] : Store)).1.length
      = ([] : List RawEntry).length + 1 ∧
    (getBook (insert_or_update_book [] (normalizeEntry rawNoKey)).2 "Unknown ASIN").isSome
      = true :=
  malformed_entry_defaulted_and_written rawNoKey [] [] (by decide) (by decide)

/-! ### Demonstration data for the downloader claims -/

/-- Library row eligible for download, keyed "B4". -/
def demoStore4 : Store :=
  [ { asin := "B4", author := "U", title := "T4", description := "D",
      length := "5", epub := "", downloaded := false, coverUrl := "c",
      finished := false, status := "Library" } ]

/-- External outcomes for the failed-transcode scenario: the fetch
subprocess succeeds and deposits an artifact, ffmpeg exits nonzero. -/
def demoOut4 : ExtOutcome :=
  { fetch := FetchOutcome.ok ["X-B4.aax"], ffmpegOk := false }

/-- The candidate for key "B4". -/
def demoCand4 : Cand :=
  { asin := "B4", title := "T4", author := "U" }

/-- A stranded artifact of one specific title. -/
def demoAlgebraFile : String :=
  "The_Algebra_of_Happiness-LC_64_22050_stereo.aax"

/-- Candidate book row for the three-candidate isolation scenario. -/
def demoBook7 (a : String) : Book :=
  { asin := a, author := "U", title := "T" ++ a, description := "D",
    length := "5", epub := "", downloaded := false, coverUrl := "c",
    finished := false, status := "Library" }

/-- Store holding the three candidates A1, A2, A3. -/
def demoStore7 : Store :=
  [demoBook7 "A1", demoBook7 "A2", demoBook7 "A3"]

/-- Candidate record for one of A1, A2, A3. -/
def demoCand7 (a : String) : Cand :=
  { asin := a, title := "T" ++ a, author := "U" }

/-- External outcomes for the isolation scenario: the fetch for A2 raises,
every other fetch succeeds and deposits an artifact named after the key. -/
def demoEnv7 : String → ExtOutcome := fun k =>
  if k == "A2" then { fetch := FetchOutcome.raises, ffmpegOk := true }
  else { fetch := FetchOutcome.ok ["file_" ++ k ++ ".aax"], ffmpegOk := true }

/-- A resume scenario: the artifact for key "AX1" is already on disk. -/
def demoFilesResume : List String :=
  ["Book-AX1.aax"]

/-- The candidate for the resume scenario. -/
def demoCandResume : Cand :=
  { asin := "AX1", title := "T", author := "U" }

/-! ### Claims about the download pipeline -/

/-- C4 counterexample: with `TEST_MODE` off, a candidate whose fetch
succeeds but whose ffmpeg conversion fails (nonzero exit) still gets
`Downloaded = true` written to the store, contradicting the claim that the
flag is written exactly on a verified successful conversion and that a
transcode failure leaves the store unchanged. -/
theorem downloaded_written_despite_failed_transcode_cx :
    demoOut4.ffmpegOk = false ∧
    (getBook (processOne false demoOut4 (demoStore4, []) demoCand4).1 "B4").map
        (fun b => b.downloaded) = some true := by
  decide

/-- C4 (amended): `Downloaded = true` is written for the key of a candidate
exactly when `TEST_MODE` is off, no artifact pre-exists at the probe of the loop,
and the fetch subprocess succeeds with a locatable artifact — independent of
the transcode outcome.  A fetch failure leaves the store unchanged; a failed
transcode does not prevent the write; and on the pre-existing-artifact path
the loop `continue`s without writing even when conversion succeeds. -/
theorem downloaded_write_characterized (tm : Bool) (o : ExtOutcome) (s : Store)
    (files : List String) (c : Cand) :
    (processOne tm o (s, files) c).1 =
      if tm = false ∧ find_downloaded_aax_file files c.asin = none
          ∧ fetchLocatesArtifact o files c.asin = true
      then update_book_downloaded_status s c.asin
      else s := by
  unfold processOne
  cases hf : find_downloaded_aax_file files c.asin with
  | some f => simp [hf]
  | none =>
    unfold download_book
    rw [hf]
    cases hfetch : o.fetch with
    | raises => simp [fetchLocatesArtifact, hfetch]
    | ok newFiles =>
      cases hf2 : find_downloaded_aax_file (files ++ newFiles) c.asin with
      | none => simp [fetchLocatesArtifact, hfetch, hf2]
      | some f =>
        cases tm with
        | true => simp [fetchLocatesArtifact, hfetch, hf2]
        | false => simp [fetchLocatesArtifact, hfetch, hf2]

/-- C5: when the probe finds a raw artifact already in the working
directory, the loop body emits no fetch invocation and goes straight to an
ffmpeg invocation on the located artifact. -/
theorem resume_skips_fetch (tm : Bool) (o : ExtOutcome) (s : Store)
    (files : List String) (c : Cand) (f : String)
    (h : find_downloaded_aax_file files c.asin = some f) :
    (processOne tm o (s, files) c).2.2
      = [Event.itemStarted c.asin, Event.transcodeInvoked f] ∧
    fetchCount (processOne tm o (s, files) c).2.2 = 0 := by
  unfold processOne
  rw [h]
  exact ⟨rfl, by simp⟩

/-- C5 witness: the resume scenario with the "AX1" artifact on disk. -/
theorem resume_skips_fetch_w :
    (processOne true demoOut4 ([], demoFilesResume) demoCandResume).2.2
      = [Event.itemStarted demoCandResume.asin, Event.transcodeInvoked "Book-AX1.aax"] ∧
    fetchCount (processOne true demoOut4 ([], demoFilesResume) demoCandResume).2.2 = 0 :=
  resume_skips_fetch true demoOut4 [] demoFilesResume demoCandResume
    "Book-AX1.aax" (by decide)

/-- C6 counterexample: the probe returns the very same stranded artifact
for two distinct keys — a file of an unrelated title (it merely starts
with the hardcoded literal) is attributed to whatever key is asked for —
contradicting the claim that the probe never returns an artifact belonging
to a different title. -/
theorem probe_false_positive_cx :
    find_downloaded_aax_file [demoAlgebraFile] "AAAA" = some demoAlgebraFile ∧
    find_downloaded_aax_file [demoAlgebraFile] "BBBB" = some demoAlgebraFile ∧
    (("AAAA" : String) == "BBBB") = false := by
  decide

/-- C6 (amended): the probe is a deterministic function of the directory
listing and the key, but the association is substring/prefix matching, not
a keyed record: any file it returns ends in `.aax` and either contains the
key as a substring or starts with the hardcoded literal
`The_Algebra_of_Happiness`, so unrelated titles can be returned for a key
(and an artifact whose name does not contain the key is missed). -/
theorem probe_substring_characterization (files : List String) (asin f : String)
    (h : find_downloaded_aax_file files asin = some f) :
    f ∈ files ∧ strEndsWith f ".aax" = true ∧
      (strContains f asin = true ∨ strStartsWith f "The_Algebra_of_Happiness" = true) := by
  unfold find_downloaded_aax_file at h
  refine ⟨List.mem_of_find?_eq_some h, ?_⟩
  have hp := List.find?_some h
  simp only [Bool.and_eq_true, Bool.or_eq_true] at hp
  exact ⟨hp.1, hp.2⟩

/-- C6 witness: the characterization at the stranded-artifact directory. -/
theorem probe_substring_characterization_w :
    demoAlgebraFile ∈ [demoAlgebraFile] ∧
    strEndsWith demoAlgebraFile ".aax" = true ∧
      (strContains demoAlgebraFile "AAAA" = true ∨
        strStartsWith demoAlgebraFile "The_Algebra_of_Happiness" = true) :=
  probe_substring_characterization [demoAlgebraFile] "AAAA" demoAlgebraFile
    (by decide)

/-- C7: per-item failure isolation.  First, for every candidate sequence
and every assignment of external outcomes, the loop body is started for
every candidate in order — no per-item fetch or transcode failure aborts
the batch.  Second, in the concrete three-candidate run in which the fetch
for A2 raises, A1 and A3 are processed to completion (`Downloaded = true`
in the store) while A2 stays un-downloaded, and all three items were
started. -/
theorem per_item_isolation :
    (∀ (tm : Bool) (env : String → ExtOutcome) (st : Store × List String)
       (bs : List Cand),
       startedAsins (processBooks tm env st bs).2.2 = bs.map (fun c => c.asin)) ∧
    (demoEnv7 "A2" = { fetch := FetchOutcome.raises, ffmpegOk := true } ∧
     (getBook (processBooks false demoEnv7 (demoStore7, [])
         [demoCand7 "A1", demoCand7 "A2", demoCand7 "A3"]).1 "A1").map
        (fun b => b.downloaded) = some true ∧
     (getBook (processBooks false demoEnv7 (demoStore7, [])
         [demoCand7 "A1", demoCand7 "A2", demoCand7 "A3"]).1 "A2").map
        (fun b => b.downloaded) = some false ∧
     (getBook (processBooks false demoEnv7 (demoStore7, [])
         [demoCand7 "A1", demoCand7 "A2", demoCand7 "A3"]).1 "A3").map
        (fun b => b.downloaded) = some true ∧
     startedAsins (processBooks false demoEnv7 (demoStore7, [])
         [demoCand7 "A1", demoCand7 "A2", demoCand7 "A3"]).2.2
       = ["A1", "A2", "A3"]) := by
  refine ⟨fun tm env st bs => startedAsins_processBooks tm env bs st, ?_⟩
  decide

/-- C8: the selector returns exactly the candidate projections of the
stored rows satisfying `Status = Library ∧ Downloaded = false ∧
Finished = false`; in particular no downloaded, finished or wishlist row is
ever returned, and the result is empty (not an error) when no row
qualifies. -/
theorem selector_characterization (s : Store) (c : Cand) :
    c ∈ get_books_to_download s ↔
      ∃ b, b ∈ s ∧ b.status = "Library" ∧ b.downloaded = false
        ∧ b.finished = false
        ∧ c = { asin := b.asin, title := b.title, author := b.author } := by
  unfold get_books_to_download
  simp only [List.mem_map, List.mem_filter, Bool.and_eq_true, beq_iff_eq]
  constructor
  · rintro ⟨b, ⟨hbs, ⟨hd, hf⟩, hst⟩, rfl⟩
    exact ⟨b, hbs, hst, hd, hf, rfl⟩
  · rintro ⟨b, hbs, hst, hd, hf, rfl⟩
    exact ⟨b, ⟨hbs, ⟨hd, hf⟩, hst⟩, rfl⟩

/-- C10: with the shipped `TEST_MODE = True`, every download-phase run
starts at most one candidate (the selected list is truncated to its first
element), performs no `Downloaded = 1` store write, and leaves the store
exactly as it was. -/
theorem test_mode_truncates_and_never_writes (env : String → ExtOutcome)
    (s : Store) (files : List String) :
    (mainRun TEST_MODE env s files).1 = s ∧
    (startedAsins (mainRun TEST_MODE env s files).2.2).length ≤ 1 ∧
    dbWriteCount (mainRun TEST_MODE env s files).2.2 = 0 := by
  unfold mainRun TEST_MODE
  refine ⟨processBooks_store_testmode env _ _, ?_, dbWriteCount_processBooks_testmode env _ _⟩
  rw [startedAsins_processBooks]
  simp only [if_true, List.length_map, List.length_take]
  exact min_le_left 1 _

end AutoSnipd
